import Mathlib

/-!
Shallow embedding of the nvtispflash ISP programmer (nvtispflash.c and its
header) and proofs about the claims of its specification.

Machine integers are modelled as `Nat` with explicit reduction modulo
`2^32` wherever the C code relies on `uint32_t` wrap-around.  Serial-port
transactions are modelled by explicit parameters: a `Bool` saying whether
the blocking write transferred the full 64 bytes, and an `Option PktAck`
saying whether a complete 64-byte reply was read (and, if so, which one).
-/

set_option maxRecDepth 100000

namespace Nvtispflash

/-- Modulus of a `uint32_t`. -/
def U32 : Nat := 4294967296

/-- Command opcodes from the header's enum. -/
def CMD_CONNECT : Nat := 0xae

def CMD_GET_DEVICEID : Nat := 0xb1

def CMD_GET_FWVER : Nat := 0xa6

def CMD_READ_CONFIG : Nat := 0xa2

def CMD_RESET : Nat := 0xad

def CMD_RUN_APROM : Nat := 0xab

def CMD_SYNC_PACKNO : Nat := 0xa4

def CMD_UPDATE_APROM : Nat := 0xa0

def CMD_UPDATE_CONFIG : Nat := 0xa1

/-- Little-endian byte decomposition of a 32-bit value. -/
def le4 (n : Nat) : List Nat :=
  [n % 256, n / 256 % 256, n / 65536 % 256, n / 16777216 % 256]

/-- Command packet `struct pkt_cmd`: a 4-byte opcode, a 4-byte packet
number and a 56-byte payload region. -/
structure PktCmd where
  cmd : Nat
  pkt_num : Nat
  payload : List Nat
  deriving DecidableEq

/-- Ack packet `struct pkt_ack`: a 4-byte checksum, a 4-byte packet
number and a 56-byte payload region. -/
structure PktAck where
  checksum : Nat
  pkt_num : Nat
  payload : List Nat
  deriving DecidableEq

/-- Error outcomes, one constructor per distinct C return site relevant
to the claims. -/
inductive PErr where
  | timeout
  | badPktNum
  | badChecksum
  | emptyImage
  | imageTooBig
  | unsupportedDevice
  deriving DecidableEq

/-- Errno value each error constructor corresponds to in the C source
(`-ETIMEDOUT`, `-EIO`, `-EIO`, `-EBADF`, `-E2BIG`; the unsupported-device
branch calls `errx` and terminates the process). -/
def errnoOf : PErr → Int
  | PErr.timeout => -110
  | PErr.badPktNum => -5
  | PErr.badChecksum => -5
  | PErr.emptyImage => -9
  | PErr.imageTooBig => -7
  | PErr.unsupportedDevice => -95

/-- Session state `struct dev`, restricted to the fields the protocol
engine reads or writes. -/
structure Dev where
  pkt_num : Nat
  checksum : Nat
  ack : PktAck
  aprom_size : Nat
  config_current : List Nat
  config_new : List Nat
  config_mask : List Nat
  deriving DecidableEq

/-- The 64 bytes of a command frame, in wire order. -/
def pktCmdBytes (c : PktCmd) : List Nat :=
  le4 c.cmd ++ le4 c.pkt_num ++ c.payload

/-- Embeds `calc_checksum`: fold the 64 frame bytes into a `uint32_t`
accumulator, wrapping at each addition exactly as the C `sum += *p++`
does. -/
def calc_checksum (c : PktCmd) : Nat :=
  (pktCmdBytes c).foldl (fun s b => (s + b) % U32) 0

/-- Embeds `send_cmd`: stamp the session's packet number into the frame,
record the frame's checksum in the session, hand the frame to the
transport; on a full write advance the packet number, on a short or
failed write return `-ETIMEDOUT` without advancing it.  Returns the
result, the post-state and the frame as it was written. -/
def send_cmd (dev : Dev) (cmd : PktCmd) (writeOk : Bool) :
    Except PErr Unit × Dev × PktCmd :=
  let c : PktCmd := { cmd with pkt_num := dev.pkt_num }
  let dev1 : Dev := { dev with checksum := calc_checksum c }
  if writeOk then
    (Except.ok (), { dev1 with pkt_num := (dev1.pkt_num + 1) % U32 }, c)
  else
    (Except.error PErr.timeout, dev1, c)

/-- Embeds `read_response`: `none` models a short or absent reply
(`-ETIMEDOUT`); a complete reply is stored into `dev.ack`, then its
packet number is checked against the session counter and its checksum
field against the recorded checksum of the last sent command. -/
def read_response (dev : Dev) (reply : Option PktAck) :
    Except PErr Unit × Dev :=
  match reply with
  | none => (Except.error PErr.timeout, dev)
  | some a =>
    let dev1 : Dev := { dev with ack := a }
    if a.pkt_num ≠ dev1.pkt_num then (Except.error PErr.badPktNum, dev1)
    else if a.checksum ≠ dev1.checksum then (Except.error PErr.badChecksum, dev1)
    else (Except.ok (), dev1)

/-- All-zero ack payload/frame. -/
def zeroAck : PktAck :=
  { checksum := 0, pkt_num := 0, payload := List.replicate 56 0 }

/-- Fresh session state with a given starting packet number (main uses
0x17); scalar fields zeroed as by the C initializer. -/
def initDev (p : Nat) : Dev :=
  { pkt_num := p, checksum := 0, ack := zeroAck, aprom_size := 0,
    config_current := List.replicate 5 0,
    config_new := List.replicate 5 0,
    config_mask := List.replicate 5 0 }

/-- The frame built by `dev_sync_packno` before it is handed to
`send_cmd`: a zero-initialized `struct pkt_cmd`, whose opcode is set to
`CMD_SYNC_PACKNO` and whose `sync_packno.rn` payload word is assigned
from the frame's own (still zero) `pkt_num` field — exactly as the C
source writes `cmd.sync_packno.rn = cmd.pkt_num;`. -/
def dev_sync_packno_cmd : PktCmd :=
  let cmd0 : PktCmd := { cmd := 0, pkt_num := 0, payload := List.replicate 56 0 }
  let cmd1 : PktCmd := { cmd0 with cmd := CMD_SYNC_PACKNO }
  { cmd1 with payload := le4 cmd1.pkt_num ++ cmd1.payload.drop 4 }

/-- The `sync_packno.rn` field of a command frame: the little-endian
32-bit word at payload offset 0. -/
def sync_rn (c : PktCmd) : Nat :=
  c.payload.getD 0 0 + 256 * c.payload.getD 1 0 +
    65536 * c.payload.getD 2 0 + 16777216 * c.payload.getD 3 0

/-- Embeds `dev_sync_packno`: send the SYNC_PACKNO frame, then read and
validate the response. -/
def dev_sync_packno (dev : Dev) (writeOk : Bool) (reply : Option PktAck) :
    Except PErr Unit × Dev × PktCmd :=
  match send_cmd dev dev_sync_packno_cmd writeOk with
  | (Except.error e, d, c) => (Except.error e, d, c)
  | (Except.ok _, d, c) =>
    match read_response d reply with
    | (r, d2) => (r, d2, c)

/-- The CONNECT frame `dev_connect` builds: zero-initialized with opcode
`CMD_CONNECT`. -/
def connect_cmd : PktCmd :=
  { cmd := CMD_CONNECT, pkt_num := 0, payload := List.replicate 56 0 }

/-- Embeds `dev_connect`'s retry loop.  Each list element describes one
probe round: whether the write succeeded and what the subsequent
non-blocking read returned.  A write failure aborts with its error; an
absent or invalid reply repeats the loop; a valid reply returns success.
An exhausted list models observing the (in C unbounded) loop for only
finitely many rounds and is reported as a timeout. -/
def dev_connect : Dev → List (Bool × Option PktAck) → Except PErr Unit × Dev
  | dev, [] => (Except.error PErr.timeout, dev)
  | dev, (wOk, reply) :: rest =>
    match send_cmd dev connect_cmd wOk with
    | (Except.error e, d, _) => (Except.error e, d)
    | (Except.ok _, d, _) =>
      match read_response d reply with
      | (Except.ok _, d2) => (Except.ok (), d2)
      | (Except.error _, d2) => dev_connect d2 rest

/-- One flash-transfer frame, as the tagged content `dev_update_aprom`
puts into the command union: the first frame carries
`update_aprom{start_addr, total_length, data[≤48]}` under opcode
`CMD_UPDATE_APROM`; every later frame carries `update_aprom2{data[≤56]}`
under opcode 0. -/
inductive FlashFrame where
  | first (start_addr : Nat) (total_length : Nat) (data : List Nat)
  | cont (data : List Nat)
  deriving DecidableEq

/-- Opcode the transfer loop writes into the frame's `cmd` field. -/
def FlashFrame.opcode : FlashFrame → Nat
  | FlashFrame.first _ _ _ => CMD_UPDATE_APROM
  | FlashFrame.cont _ => 0

/-- Number of image bytes the frame carries. -/
def FlashFrame.dataLen : FlashFrame → Nat
  | FlashFrame.first _ _ d => d.length
  | FlashFrame.cont d => d.length

/-- Wire encoding of a flash frame's payload region: fields laid out in
order, remaining bytes zero (the C `struct pkt_cmd cmd = {}`). -/
def FlashFrame.toPktCmd : FlashFrame → PktCmd
  | FlashFrame.first sa tl d =>
    { cmd := CMD_UPDATE_APROM, pkt_num := 0,
      payload := (le4 sa ++ le4 tl ++ d ++ List.replicate 48 0).take 56 }
  | FlashFrame.cont d =>
    { cmd := 0, pkt_num := 0,
      payload := (d ++ List.replicate 56 0).take 56 }

/-- Continuation frames cut from the image bytes that remain after the
first frame: up to `sizeof(cmd.update_aprom2.data)` = 56 bytes each. -/
def contFlashFrames (rest : List Nat) : List FlashFrame :=
  if _h : rest.isEmpty then []
  else FlashFrame.cont (rest.take 56) :: contFlashFrames (rest.drop 56)
termination_by rest.length
decreasing_by
  simp only [List.length_drop]
  have : rest ≠ [] := by
    intro hnil
    rw [hnil] at _h
    exact _h rfl
  have : 0 < rest.length := List.length_pos.mpr this
  omega

/-- The frame sequence `dev_update_aprom`'s while-loop produces for an
image: first `update_aprom{start_addr := 0, total_length := T}` with up
to `sizeof(cmd.update_aprom.data)` = 48 bytes, then continuation
frames. -/
def apromFrames (buf : List Nat) : List FlashFrame :=
  if buf.isEmpty then []
  else FlashFrame.first 0 buf.length (buf.take 48) :: contFlashFrames (buf.drop 48)

/-- Block sizes the spec describes: the first block is `min(T,48)` bytes
and every later block `min(remaining,56)` bytes, until the cursor
reaches `T`.  Stated from the spec's words, to be compared with the
sizes `apromFrames` actually produces. -/
def contSpecSizes (r : Nat) : List Nat :=
  if r = 0 then [] else min r 56 :: contSpecSizes (r - min r 56)
termination_by r
decreasing_by omega

/-- Block-size list for a whole image of length `T`, per the spec's
words (first block `min(T,48)`, then `min(remaining,56)` each). -/
def specBlockSizes (T : Nat) : List Nat :=
  if T = 0 then [] else min T 48 :: contSpecSizes (T - min T 48)

/-- Embeds `dev_update_aprom`'s send loop: for each frame, hand it to
`send_cmd`, then read and validate the ack; only then move to the next
frame.  The transport behavior of each round comes from the head of the
`io` list.  The returned `Nat` counts the frames actually written. -/
def flashLoop : Dev → List FlashFrame → List (Bool × Option PktAck) →
    Except PErr Unit × Dev × Nat
  | dev, [], _ => (Except.ok (), dev, 0)
  | dev, f :: fs, io =>
    let step := io.headD (false, none)
    match send_cmd dev f.toPktCmd step.1 with
    | (Except.error e, d, _) => (Except.error e, d, 0)
    | (Except.ok _, d, _) =>
      match read_response d step.2 with
      | (Except.error e, d2) => (Except.error e, d2, 1)
      | (Except.ok _, d2) =>
        match flashLoop d2 fs io.tail with
        | (r, d3, n) => (r, d3, n + 1)

/-- Embeds `dev_update_aprom`: reject an empty image (`-EBADF`) and an
image larger than the resolved APROM capacity (`-E2BIG`) before building
or sending any frame; otherwise run the chunked transfer loop. -/
def dev_update_aprom (dev : Dev) (buf : List Nat)
    (io : List (Bool × Option PktAck)) : Except PErr Unit × Dev × Nat :=
  if buf.length = 0 then (Except.error PErr.emptyImage, dev, 0)
  else if dev.aprom_size < buf.length then (Except.error PErr.imageTooBig, dev, 0)
  else flashLoop dev (apromFrames buf) io

/-- One byte of the config merge in `set_new_config_options`:
`config_update.raw[i] = current.raw[i] & ~mask.raw[i]; config_update.raw[i] |= new.raw[i]`. -/
def mergeByte (cur mask des : Nat) : Nat :=
  (cur &&& (255 ^^^ mask)) ||| des

/-- One byte of the merge as the spec words it:
`updated = (current & !mask) | (desired & mask)`. -/
def mergeByteSpec (cur mask des : Nat) : Nat :=
  (cur &&& (255 ^^^ mask)) ||| (des &&& mask)

/-- The 5-byte config merge computed by `set_new_config_options`'s loop
over `sizeof(union config_bytes)` = 5 bytes. -/
def set_new_config_merge (cur des mask : List Nat) : List Nat :=
  [ mergeByte (cur.getD 0 0) (mask.getD 0 0) (des.getD 0 0),
    mergeByte (cur.getD 1 0) (mask.getD 1 0) (des.getD 1 0),
    mergeByte (cur.getD 2 0) (mask.getD 2 0) (des.getD 2 0),
    mergeByte (cur.getD 3 0) (mask.getD 3 0) (des.getD 3 0),
    mergeByte (cur.getD 4 0) (mask.getD 4 0) (des.getD 4 0) ]

/-- The 5-byte merge as the spec words it, for comparison with
`set_new_config_merge`. -/
def merge_spec (cur des mask : List Nat) : List Nat :=
  [ mergeByteSpec (cur.getD 0 0) (mask.getD 0 0) (des.getD 0 0),
    mergeByteSpec (cur.getD 1 0) (mask.getD 1 0) (des.getD 1 0),
    mergeByteSpec (cur.getD 2 0) (mask.getD 2 0) (des.getD 2 0),
    mergeByteSpec (cur.getD 3 0) (mask.getD 3 0) (des.getD 3 0),
    mergeByteSpec (cur.getD 4 0) (mask.getD 4 0) (des.getD 4 0) ]

/-- One row of the `ldsize[8]` table: LDROM and APROM sizes in KiB. -/
structure LdsizeEntry where
  ldrom_size : Nat
  aprom_size : Nat
  deriving DecidableEq

/-- The `ldsize[8]` table from the source, indexed by the 3-bit LDSIZE
config field. -/
def ldsize : List LdsizeEntry :=
  [⟨4, 14⟩, ⟨4, 14⟩, ⟨4, 14⟩, ⟨4, 14⟩, ⟨3, 15⟩, ⟨2, 16⟩, ⟨1, 17⟩, ⟨0, 18⟩]

/-- APROM capacity main resolves from the config:
`ldsize[config.ldsize].aprom_size * 1024` bytes. -/
def apromCapacity (ls : Nat) : Nat :=
  (ldsize.getD ls ⟨0, 0⟩).aprom_size * 1024

/-- Size of `dev_update_aprom`'s staging buffer `char buf[18 * 1024]`. -/
def stagingBufSize : Nat := 18 * 1024

/-- Embeds main's device-id switch: accept `0x3650` (N76E003); any other
id reaches the `errx(EXIT_FAILURE, ...)` branch, which terminates the
process. -/
def main_deviceid_gate (id : Nat) : Except PErr Unit :=
  if id = 0x3650 then Except.ok () else Except.error PErr.unsupportedDevice

/-- Opcodes main issues after the device-id switch and before any
optional step: `CMD_READ_CONFIG` is reached only when the gate
accepted. -/
def main_cmds_after_deviceid (id : Nat) : List Nat :=
  match main_deviceid_gate id with
  | Except.ok _ => [CMD_READ_CONFIG]
  | Except.error _ => []

/-- A well-formed ack for the last sent command: packet number equal to
the session counter and checksum equal to the recorded command
checksum. -/
def goodAck (dev : Dev) : PktAck :=
  { checksum := dev.checksum, pkt_num := dev.pkt_num,
    payload := List.replicate 56 0 }

/-- One successful send/ack cycle: a full write followed by a complete,
valid reply. -/
def sendAckCycle (dev : Dev) (cmd : PktCmd) : Except PErr Unit × Dev :=
  match send_cmd dev cmd true with
  | (Except.error e, d, _) => (Except.error e, d)
  | (Except.ok _, d, _) => read_response d (some (goodAck d))

/-- N successful send/ack cycles in a row. -/
def cyclesN (dev : Dev) (cmd : PktCmd) : Nat → Dev
  | 0 => dev
  | n + 1 => (sendAckCycle (cyclesN dev cmd n) cmd).2

/-- The valid ack a simulated device sends to the third CONNECT probe
when the session started at packet number `p`: it echoes the third
frame's checksum and carries the incremented packet number, as
`read_response` demands. -/
def mkConnectAck (p : Nat) : PktAck :=
  { checksum := calc_checksum { connect_cmd with pkt_num := (p + 2) % U32 },
    pkt_num := (p + 3) % U32,
    payload := List.replicate 56 0 }

/-- Transport behavior of a simulated device that ignores the first two
CONNECT frames and acknowledges the third. -/
def connectIgnoreTwo (p : Nat) : List (Bool × Option PktAck) :=
  [(true, none), (true, none), (true, some (mkConnectAck p))]

/-- An ack that echoes the packet number stamped into the command it
answers (rather than that value plus one) and carries the correct
command checksum, for a session that started at packet number `p`. -/
def echoStampAck (p : Nat) : PktAck :=
  { checksum := calc_checksum { connect_cmd with pkt_num := p },
    pkt_num := p,
    payload := List.replicate 56 0 }

/-- Session state after one CONNECT frame has been handed to the
transport: checksum recorded, packet number advanced. -/
def devAfterSend (dev : Dev) : Dev :=
  { dev with checksum := calc_checksum { connect_cmd with pkt_num := dev.pkt_num },
             pkt_num := (dev.pkt_num + 1) % U32 }

/-- An ack whose packet number is the session counter after the send and
whose checksum matches the sent CONNECT frame, for a session that sent
one CONNECT frame starting from packet number `p`. -/
def okNextAck (p : Nat) : PktAck :=
  { checksum := calc_checksum { connect_cmd with pkt_num := p },
    pkt_num := (p + 1) % U32,
    payload := List.replicate 56 0 }

/-! Helper lemmas. -/

theorem foldl_mod_sum (l : List Nat) (a : Nat) (ha : a < U32) :
    l.foldl (fun s b => (s + b) % U32) a = (a + l.sum) % U32 := by
  induction l generalizing a with
  | nil => simpa using (Nat.mod_eq_of_lt ha).symm
  | cons x xs ih =>
    have hlt : (a + x) % U32 < U32 := Nat.mod_lt _ (by decide)
    simp only [List.foldl_cons, List.sum_cons]
    rw [ih ((a + x) % U32) hlt, Nat.mod_add_mod]
    ring_nf

theorem calc_checksum_eq_sum (c : PktCmd) :
    calc_checksum c = (pktCmdBytes c).sum % U32 := by
  unfold calc_checksum
  rw [foldl_mod_sum (pktCmdBytes c) 0 (by decide)]
  simp

theorem contFlashFrames_nil : contFlashFrames [] = [] := by
  simp [contFlashFrames]

theorem contFlashFrames_map_aux :
    ∀ (n : Nat) (rest : List Nat), rest.length ≤ n →
      (contFlashFrames rest).map FlashFrame.dataLen = contSpecSizes rest.length := by
  intro n
  induction n with
  | zero =>
    intro rest h
    have : rest = [] := List.eq_nil_of_length_eq_zero (Nat.le_zero.mp h)
    subst this
    simp [contFlashFrames, contSpecSizes]
  | succ n ih =>
    intro rest h
    by_cases he : rest.isEmpty
    · have : rest = [] := by
        cases rest with
        | nil => rfl
        | cons x xs => simp at he
      subst this
      simp [contFlashFrames, contSpecSizes]
    · have hne : rest ≠ [] := by
        intro hnil
        rw [hnil] at he
        exact he rfl
      have hpos : 0 < rest.length := List.length_pos.mpr hne
      have hrec := ih (rest.drop 56) (by simp [List.length_drop]; omega)
      rw [contFlashFrames, dif_neg he]
      simp only [List.map_cons, FlashFrame.dataLen, hrec,
        List.length_take, List.length_drop]
      conv_rhs => rw [contSpecSizes]
      have hz : rest.length ≠ 0 := by omega
      rw [if_neg hz]
      rcases Nat.le_total rest.length 56 with hle | hle
      · have h56 : rest.length - 56 = 0 := by omega
        have hself : rest.length - rest.length = 0 := by omega
        rw [Nat.min_eq_left hle, Nat.min_eq_right hle, h56, hself]
      · rw [Nat.min_eq_right hle, Nat.min_eq_left hle]

theorem contFlashFrames_map_dataLen (rest : List Nat) :
    (contFlashFrames rest).map FlashFrame.dataLen = contSpecSizes rest.length :=
  contFlashFrames_map_aux rest.length rest (Nat.le_refl _)

theorem contSpecSizes_sum : ∀ r : Nat, (contSpecSizes r).sum = r := by
  intro r
  induction r using Nat.strong_induction_on with
  | _ r ih =>
    rw [contSpecSizes]
    by_cases hz : r = 0
    · simp [hz]
    · simp only [hz, if_false, List.sum_cons]
      have hmin : 0 < min r 56 := by
        rcases Nat.le_total r 56 with hle | hle
        · rw [Nat.min_eq_left hle]; omega
        · rw [Nat.min_eq_right hle]; omega
      have hlt : r - min r 56 < r := by omega
      rw [ih _ hlt]
      have : min r 56 ≤ r := Nat.min_le_left _ _
      omega

theorem contFlashFrames_opcode :
    ∀ (n : Nat) (rest : List Nat), rest.length ≤ n →
      ∀ f ∈ contFlashFrames rest, FlashFrame.opcode f = 0 := by
  intro n
  induction n with
  | zero =>
    intro rest h f hf
    have : rest = [] := List.eq_nil_of_length_eq_zero (Nat.le_zero.mp h)
    subst this
    rw [contFlashFrames_nil] at hf
    exact absurd hf (List.not_mem_nil f)
  | succ n ih =>
    intro rest h f hf
    by_cases he : rest.isEmpty
    · have : rest = [] := by
        cases rest with
        | nil => rfl
        | cons x xs => simp at he
      subst this
      rw [contFlashFrames_nil] at hf
      exact absurd hf (List.not_mem_nil f)
    · have hne : rest ≠ [] := by
        intro hnil
        rw [hnil] at he
        exact he rfl
      have hpos : 0 < rest.length := List.length_pos.mpr hne
      rw [contFlashFrames, dif_neg he] at hf
      rcases List.mem_cons.mp hf with hf1 | hf1
      · subst hf1
        rfl
      · exact ih (rest.drop 56) (by simp [List.length_drop]; omega) f hf1

theorem sendAckCycle_eq (dev : Dev) (cmd : PktCmd) :
    sendAckCycle dev cmd =
      (Except.ok (),
       { dev with checksum := calc_checksum { cmd with pkt_num := dev.pkt_num },
                  pkt_num := (dev.pkt_num + 1) % U32,
                  ack := goodAck { dev with
                    checksum := calc_checksum { cmd with pkt_num := dev.pkt_num },
                    pkt_num := (dev.pkt_num + 1) % U32 } }) := by
  simp [sendAckCycle, send_cmd, read_response, goodAck]

theorem cyclesN_pkt (dev : Dev) (cmd : PktCmd) (hp : dev.pkt_num < U32) :
    ∀ n : Nat, (cyclesN dev cmd n).pkt_num = (dev.pkt_num + n) % U32 := by
  intro n
  induction n with
  | zero => simpa [cyclesN] using (Nat.mod_eq_of_lt hp).symm
  | succ n ih =>
    show (sendAckCycle (cyclesN dev cmd n) cmd).2.pkt_num = _
    rw [sendAckCycle_eq]
    simp only [ih]
    rw [Nat.mod_add_mod]
    ring_nf

theorem contSpecSizes_zero : contSpecSizes 0 = [] := by
  rw [contSpecSizes, if_pos rfl]

theorem contSpecSizes_step (r : Nat) (h : r ≠ 0) :
    contSpecSizes r = min r 56 :: contSpecSizes (r - min r 56) := by
  rw [contSpecSizes, if_neg h]

theorem specBlockSizes_236 : specBlockSizes 236 = [48, 56, 56, 56, 20] := by
  rw [specBlockSizes, if_neg (by norm_num)]
  norm_num
  rw [contSpecSizes_step 188 (by norm_num)]
  norm_num
  rw [contSpecSizes_step 132 (by norm_num)]
  norm_num
  rw [contSpecSizes_step 76 (by norm_num)]
  norm_num
  rw [contSpecSizes_step 20 (by norm_num)]
  norm_num
  rw [contSpecSizes_zero]

theorem apromFrames_map_dataLen (buf : List Nat) :
    (apromFrames buf).map FlashFrame.dataLen = specBlockSizes buf.length := by
  unfold apromFrames specBlockSizes
  by_cases he : buf.isEmpty
  · have : buf = [] := by
      cases buf with
      | nil => rfl
      | cons x xs => simp at he
    subst this
    simp
  · have hne : buf ≠ [] := by
      intro hnil
      rw [hnil] at he
      exact he rfl
    have hpos : 0 < buf.length := List.length_pos.mpr hne
    have hz : buf.length ≠ 0 := by omega
    rw [if_neg he, if_neg hz]
    simp only [List.map_cons, FlashFrame.dataLen, contFlashFrames_map_dataLen,
      List.length_take, List.length_drop]
    rcases Nat.le_total buf.length 48 with hle | hle
    · have h48 : buf.length - 48 = 0 := by omega
      have hself : buf.length - buf.length = 0 := by omega
      rw [Nat.min_eq_left hle, Nat.min_eq_right hle, h48, hself]
    · rw [Nat.min_eq_right hle, Nat.min_eq_left hle]

theorem specBlockSizes_sum (T : Nat) : (specBlockSizes T).sum = T := by
  unfold specBlockSizes
  by_cases hz : T = 0
  · simp [hz]
  · rw [if_neg hz]
    simp only [List.sum_cons, contSpecSizes_sum]
    have : min T 48 ≤ T := Nat.min_le_left _ _
    omega

theorem contFlashFrames_opcode_all (rest : List Nat) :
    ∀ f ∈ contFlashFrames rest, FlashFrame.opcode f = 0 :=
  contFlashFrames_opcode rest.length rest (Nat.le_refl _)

theorem dev_connect_none_step (dev : Dev) (rest : List (Bool × Option PktAck)) :
    dev_connect dev ((true, none) :: rest) = dev_connect (devAfterSend dev) rest := by
  simp [dev_connect, send_cmd, read_response, devAfterSend]

theorem dev_connect_ack_step (dev : Dev) (a : PktAck)
    (rest : List (Bool × Option PktAck))
    (hpkt : a.pkt_num = (devAfterSend dev).pkt_num)
    (hchk : a.checksum = (devAfterSend dev).checksum) :
    dev_connect dev ((true, some a) :: rest) =
      (Except.ok (), { devAfterSend dev with ack := a }) := by
  simp only [dev_connect, send_cmd, read_response, devAfterSend] at *
  simp [hpkt, hchk]

theorem mergeByte_eq_spec (c m d : Nat) (hd : d &&& m = d) :
    mergeByte c m d = mergeByteSpec c m d := by
  unfold mergeByte mergeByteSpec
  rw [hd]

theorem mergeByte_outside_mask (c m d j : Nat) (hc : c < 256)
    (hd : d &&& m = d) (hm : m.testBit j = false) :
    (mergeByte c m d).testBit j = c.testBit j := by
  have hdj : d.testBit j = false := by
    have h := congrArg (fun x => x.testBit j) hd
    simpa [Nat.testBit_and, hm] using h.symm
  have h255 : (255 : Nat) = 2 ^ 8 - 1 := rfl
  unfold mergeByte
  by_cases hj : j < 8
  · have hb : (255 : Nat).testBit j = true := by
      rw [h255, Nat.testBit_two_pow_sub_one]
      simpa using hj
    simp [Nat.testBit_or, Nat.testBit_and, Nat.testBit_xor, hdj, hm, hb]
  · have hcj : c.testBit j = false := by
      apply Nat.testBit_lt_two_pow
      calc c < 256 := hc
        _ = 2 ^ 8 := rfl
        _ ≤ 2 ^ j := Nat.pow_le_pow_right (by norm_num) (by omega)
    have hb : (255 : Nat).testBit j = false := by
      rw [h255, Nat.testBit_two_pow_sub_one]
      simpa using by omega
    simp [Nat.testBit_or, Nat.testBit_and, Nat.testBit_xor, hdj, hm, hb, hcj]

/-! Claim theorems. -/

/-- C1: the SYNC_PACKNO frame's `rn` payload word is always 0, because
the source assigns it from the zero-initialized frame's own `pkt_num`
field before `send_cmd` stamps the session counter into it; in
particular, with the session counter at 0x18 the frame handed to the
transport carries `rn = 0`, not 0x18, contradicting the claim that `rn`
carries the current outgoing packet-number counter. -/
theorem C1_sync_packno_rn_always_zero :
    (∀ (dev : Dev) (wOk : Bool),
      sync_rn ((send_cmd dev dev_sync_packno_cmd wOk).2.2) = 0)
    ∧ sync_rn ((send_cmd (initDev 0x18) dev_sync_packno_cmd true).2.2) = 0
    ∧ (initDev 0x18).pkt_num = 0x18
    ∧ ((send_cmd (initDev 0x18) dev_sync_packno_cmd true).2.2).pkt_num = 0x18
    ∧ (0 : Nat) ≠ 0x18 := by
  refine ⟨fun dev wOk => ?_, rfl, rfl, rfl, by decide⟩
  cases wOk <;> rfl

/-- C2 counterexample: for `current = [0,0,0,0,0]`,
`desired = [1,0,0,0,0]`, `mask = [0,0,0,0,0]` the merge computed by
`set_new_config_options` yields `[1,0,0,0,0]`, while the claimed formula
`(current AND NOT mask) OR (desired AND mask)` yields `[0,0,0,0,0]`: the
code ORs in the desired byte without masking it, so a desired bit
outside the write-mask is written. -/
theorem C2_counterexample :
    set_new_config_merge [0, 0, 0, 0, 0] [1, 0, 0, 0, 0] [0, 0, 0, 0, 0]
        = [1, 0, 0, 0, 0]
    ∧ merge_spec [0, 0, 0, 0, 0] [1, 0, 0, 0, 0] [0, 0, 0, 0, 0]
        = [0, 0, 0, 0, 0]
    ∧ set_new_config_merge [0, 0, 0, 0, 0] [1, 0, 0, 0, 0] [0, 0, 0, 0, 0]
        ≠ merge_spec [0, 0, 0, 0, 0] [1, 0, 0, 0, 0] [0, 0, 0, 0, 0] := by
  refine ⟨by decide, by decide, by decide⟩

/-- C2 (amended): per byte the merge computes
`updated[i] = (current[i] AND NOT mask[i]) OR desired[i]`; whenever every
desired byte lies within the write-mask (`desired AND mask = desired` —
which holds for every configuration the command line can produce), this
coincides with the claimed formula
`(current AND NOT mask) OR (desired AND mask)` and every bit position
where the mask is 0 is taken unchanged from `current`. -/
theorem C2_merge_within_mask (cur des mask : List Nat)
    (hc : ∀ i : Fin 5, cur.getD i.val 0 < 256)
    (hd : ∀ i : Fin 5, des.getD i.val 0 &&& mask.getD i.val 0 = des.getD i.val 0) :
    set_new_config_merge cur des mask = merge_spec cur des mask
    ∧ ∀ (i : Fin 5) (j : Nat), (mask.getD i.val 0).testBit j = false →
        ((set_new_config_merge cur des mask).getD i.val 0).testBit j
          = (cur.getD i.val 0).testBit j := by
  constructor
  · unfold set_new_config_merge merge_spec
    simp only [List.cons.injEq]
    exact ⟨mergeByte_eq_spec _ _ _ (hd 0), mergeByte_eq_spec _ _ _ (hd 1),
      mergeByte_eq_spec _ _ _ (hd 2), mergeByte_eq_spec _ _ _ (hd 3),
      mergeByte_eq_spec _ _ _ (hd 4), trivial⟩
  · intro i j hm
    have hb : (set_new_config_merge cur des mask).getD i.val 0
        = mergeByte (cur.getD i.val 0) (mask.getD i.val 0) (des.getD i.val 0) := by
      unfold set_new_config_merge
      rcases i with ⟨iv, hi⟩
      interval_cases iv <;> rfl
    rw [hb]
    exact mergeByte_outside_mask _ _ _ _ (hc i) (hd i) hm

/-- C2 witness: the spec's own example byte (`current = 0b10101010`,
`desired = mask = 0b00001111`) satisfies the amended theorem's
hypotheses, and the merge agrees with the claimed formula there. -/
theorem C2_witness :
    set_new_config_merge [170, 0, 0, 0, 0] [15, 0, 0, 0, 0] [15, 0, 0, 0, 0]
      = merge_spec [170, 0, 0, 0, 0] [15, 0, 0, 0, 0] [15, 0, 0, 0, 0] :=
  (C2_merge_within_mask [170, 0, 0, 0, 0] [15, 0, 0, 0, 0] [15, 0, 0, 0, 0]
    (by decide) (by decide)).1

/-- C3 counterexample: after sending a CONNECT command from counter
0x17, an ack whose packet number equals the number stamped into that
command (0x17) and whose checksum field is correct is rejected by
`read_response` with the sequence error, contradicting the claim that
validation succeeds on the sequence check when the two are equal. -/
theorem C3_counterexample :
    (read_response (send_cmd (initDev 0x17) connect_cmd true).2.1
        (some (echoStampAck 0x17))).1 = Except.error PErr.badPktNum
    ∧ (echoStampAck 0x17).pkt_num
        = ((send_cmd (initDev 0x17) connect_cmd true).2.2).pkt_num
    ∧ (echoStampAck 0x17).checksum
        = ((send_cmd (initDev 0x17) connect_cmd true).2.1).checksum :=
  ⟨rfl, rfl, rfl⟩

/-- C3 (amended): validation of a complete reply fails with the sequence
error exactly when the reply's packet-number field differs from the
stamped packet number plus one, i.e. from the session counter as already
advanced by the send (the device answers with the incremented number);
when the reply carries that incremented number the sequence check
passes, and validation can only succeed or fail the checksum check. -/
theorem C3_sequence_check (dev : Dev) (cmd : PktCmd) (ack : PktAck) :
    ((read_response (send_cmd dev cmd true).2.1 (some ack)).1
        = Except.error PErr.badPktNum
      ↔ ack.pkt_num ≠ (((send_cmd dev cmd true).2.2).pkt_num + 1) % U32)
    ∧ (ack.pkt_num = (((send_cmd dev cmd true).2.2).pkt_num + 1) % U32 →
        (read_response (send_cmd dev cmd true).2.1 (some ack)).1 = Except.ok ()
        ∨ (read_response (send_cmd dev cmd true).2.1 (some ack)).1
            = Except.error PErr.badChecksum) := by
  simp only [send_cmd, read_response]
  by_cases hp : ack.pkt_num = (dev.pkt_num + 1) % U32
  · by_cases hq : ack.checksum = calc_checksum { cmd with pkt_num := dev.pkt_num }
    · simp [hp, hq]
    · simp [hp, hq]
  · simp [hp]

/-- C3 witness: a concrete reply carrying the incremented packet number
and the correct command checksum passes validation outright. -/
theorem C3_witness :
    (read_response (send_cmd (initDev 0x17) connect_cmd true).2.1
        (some (okNextAck 0x17))).1 = Except.ok ()
    ∨ (read_response (send_cmd (initDev 0x17) connect_cmd true).2.1
        (some (okNextAck 0x17))).1 = Except.error PErr.badChecksum :=
  (C3_sequence_check (initDev 0x17) connect_cmd (okNextAck 0x17)).2 rfl

/-- C4: the checksum of a command frame is the plain sum of its 64 bytes
reduced modulo 2^32 (a 56-byte payload makes the frame exactly 64 bytes);
validation of a complete reply that passed the sequence check succeeds
exactly when the reply's checksum field equals the checksum of the
command frame that was sent, and the reply's own payload bytes play no
part in the decision. -/
theorem C4_checksum (cmd : PktCmd) (dev : Dev) (ack : PktAck) :
    (cmd.payload.length = 56 → (pktCmdBytes cmd).length = 64)
    ∧ calc_checksum cmd = (pktCmdBytes cmd).sum % U32
    ∧ (ack.pkt_num = ((send_cmd dev cmd true).2.1).pkt_num →
        ((read_response (send_cmd dev cmd true).2.1 (some ack)).1 = Except.ok ()
          ↔ ack.checksum = calc_checksum ((send_cmd dev cmd true).2.2)))
    ∧ (∀ q : List Nat,
        (read_response (send_cmd dev cmd true).2.1
            (some { ack with payload := q })).1
          = (read_response (send_cmd dev cmd true).2.1 (some ack)).1) := by
  refine ⟨?_, calc_checksum_eq_sum cmd, ?_, ?_⟩
  · intro h
    simp [pktCmdBytes, le4, h]
  · intro hp
    simp only [send_cmd] at hp ⊢
    simp only [read_response]
    by_cases hq : ack.checksum = calc_checksum { cmd with pkt_num := dev.pkt_num }
    · simp [hp, hq]
    · simp [hp, hq]
  · intro q
    simp only [send_cmd, read_response]
    by_cases hp : ack.pkt_num = (dev.pkt_num + 1) % U32
    · by_cases hq : ack.checksum = calc_checksum { cmd with pkt_num := dev.pkt_num }
      · simp [hp, hq]
      · simp [hp, hq]
    · simp [hp]

/-- C4 witness: the 64-byte length and the accepted concrete reply, at
the CONNECT frame sent from counter 0x17. -/
theorem C4_witness :
    (pktCmdBytes connect_cmd).length = 64
    ∧ ((read_response (send_cmd (initDev 0x17) connect_cmd true).2.1
          (some (okNextAck 0x17))).1 = Except.ok ()
        ↔ (okNextAck 0x17).checksum
            = calc_checksum ((send_cmd (initDev 0x17) connect_cmd true).2.2)) :=
  ⟨(C4_checksum connect_cmd (initDev 0x17) (okNextAck 0x17)).1 (by decide),
   (C4_checksum connect_cmd (initDev 0x17) (okNextAck 0x17)).2.2.1 rfl⟩

/-- C5: for every non-empty image, the first frame of the transfer
carries opcode UPDATE_APROM with `start_addr` 0, `total_length` equal to
the image length and `min(T,48)` data bytes; every subsequent frame
carries opcode 0; the block sizes are exactly the spec's
first-min(T,48)-then-min(remaining,56) sequence, whose total is the
whole image length (the cursor reaches exactly T); for T = 236 the
sizes are [48, 56, 56, 56, 20]; and within capacity the transfer loop
runs on exactly this frame sequence. -/
theorem C5_flash_chunking (buf : List Nat) (hpos : 0 < buf.length) :
    (apromFrames buf).head? = some (FlashFrame.first 0 buf.length (buf.take 48))
    ∧ (buf.take 48).length = min buf.length 48
    ∧ (∀ f ∈ (apromFrames buf).tail, FlashFrame.opcode f = 0)
    ∧ (apromFrames buf).map FlashFrame.dataLen = specBlockSizes buf.length
    ∧ ((apromFrames buf).map FlashFrame.dataLen).sum = buf.length
    ∧ specBlockSizes 236 = [48, 56, 56, 56, 20]
    ∧ (∀ (dev : Dev) (io : List (Bool × Option PktAck)),
        buf.length ≤ dev.aprom_size →
          dev_update_aprom dev buf io = flashLoop dev (apromFrames buf) io) := by
  have hne : buf ≠ [] := by
    intro hnil
    rw [hnil] at hpos
    exact absurd hpos (by simp)
  have he : ¬ buf.isEmpty := by
    cases buf with
    | nil => exact absurd rfl hne
    | cons x xs => simp
  have hfr : apromFrames buf
      = FlashFrame.first 0 buf.length (buf.take 48) :: contFlashFrames (buf.drop 48) := by
    rw [apromFrames, if_neg he]
  refine ⟨?_, ?_, ?_, apromFrames_map_dataLen buf, ?_, specBlockSizes_236, ?_⟩
  · rw [hfr]
    rfl
  · rw [List.length_take, Nat.min_comm]
  · rw [hfr]
    intro f hf
    exact contFlashFrames_opcode_all (buf.drop 48) f hf
  · rw [apromFrames_map_dataLen buf, specBlockSizes_sum]
  · intro dev io hcap
    have hz : buf.length ≠ 0 := by omega
    have hbig : ¬ dev.aprom_size < buf.length := by omega
    rw [dev_update_aprom, if_neg hz, if_neg hbig]

/-- C5 witness: the 236-byte image produces exactly the block sizes
[48, 56, 56, 56, 20], summing to 236. -/
theorem C5_witness :
    specBlockSizes 236 = [48, 56, 56, 56, 20]
    ∧ ((apromFrames (List.replicate 236 0)).map FlashFrame.dataLen).sum = 236 :=
  ⟨(C5_flash_chunking (List.replicate 236 0) (by simp)).2.2.2.2.2.1,
   ((C5_flash_chunking (List.replicate 236 0) (by simp)).2.2.2.2.1).trans (by simp)⟩

/-- C6: an empty image fails with the empty-image error (`-EBADF`) and an
image longer than the session's APROM capacity fails with the too-large
error (`-E2BIG`); in both cases the result is produced before any frame
is sent — zero frames written and the session state returned exactly as
it was. -/
theorem C6_preconditions (dev : Dev) (buf : List Nat)
    (io : List (Bool × Option PktAck)) :
    (buf.length = 0 →
      dev_update_aprom dev buf io = (Except.error PErr.emptyImage, dev, 0))
    ∧ (dev.aprom_size < buf.length →
      dev_update_aprom dev buf io = (Except.error PErr.imageTooBig, dev, 0)) := by
  constructor
  · intro hz
    rw [dev_update_aprom, if_pos hz]
  · intro hbig
    have hz : ¬ buf.length = 0 := by omega
    rw [dev_update_aprom, if_neg hz, if_pos hbig]

/-- C6 witness: an empty image and a 1-byte image against a 0-byte
capacity are both rejected with the session state unchanged and no
frames written. -/
theorem C6_witness :
    dev_update_aprom (initDev 0x17) [] [] = (Except.error PErr.emptyImage, initDev 0x17, 0)
    ∧ dev_update_aprom (initDev 0x17) [7] []
        = (Except.error PErr.imageTooBig, initDev 0x17, 0) :=
  ⟨(C6_preconditions (initDev 0x17) [] []).1 rfl,
   (C6_preconditions (initDev 0x17) [7] []).2 (by decide)⟩

/-- C7: main's device-id switch accepts exactly 0x3650; any other value
terminates the run with the unsupported-device failure, and the
READ_CONFIG command is issued only after an accepted identifier. -/
theorem C7_deviceid_gate (id : Nat) :
    (main_deviceid_gate id = Except.ok () ↔ id = 0x3650)
    ∧ (id ≠ 0x3650 →
        main_deviceid_gate id = Except.error PErr.unsupportedDevice
        ∧ main_cmds_after_deviceid id = []
        ∧ CMD_READ_CONFIG ∉ main_cmds_after_deviceid id)
    ∧ (id = 0x3650 → main_cmds_after_deviceid id = [CMD_READ_CONFIG]) := by
  refine ⟨?_, ?_, ?_⟩
  · constructor
    · intro h
      by_contra hne
      simp [main_deviceid_gate, hne] at h
    · intro h
      simp [main_deviceid_gate, h]
  · intro hne
    refine ⟨?_, ?_, ?_⟩
    · simp [main_deviceid_gate, hne]
    · simp [main_cmds_after_deviceid, main_deviceid_gate, hne]
    · simp [main_cmds_after_deviceid, main_deviceid_gate, hne]
  · intro h
    simp [main_cmds_after_deviceid, main_deviceid_gate, h]

/-- C7 witness: 0x3650 is accepted and is followed by READ_CONFIG;
0x1234 is rejected with no READ_CONFIG issued. -/
theorem C7_witness :
    main_deviceid_gate 0x3650 = Except.ok ()
    ∧ main_cmds_after_deviceid 0x3650 = [CMD_READ_CONFIG]
    ∧ main_deviceid_gate 0x1234 = Except.error PErr.unsupportedDevice
    ∧ main_cmds_after_deviceid 0x1234 = [] :=
  ⟨(C7_deviceid_gate 0x3650).1.mpr rfl,
   (C7_deviceid_gate 0x3650).2.2 rfl,
   ((C7_deviceid_gate 0x1234).2.1 (by decide)).1,
   ((C7_deviceid_gate 0x1234).2.1 (by decide)).2.1⟩

/-- C8: `send_cmd` stamps the session's current counter into the frame;
a successful write advances the counter by exactly one (mod 2^32) while a
failed or short write returns the timeout error and leaves the counter
unchanged; a full send/ack cycle with a valid reply succeeds; and from a
starting counter P, N successful send/ack cycles leave the next outgoing
packet number at exactly P+N. -/
theorem C8_sequence_tracker :
    (∀ (dev : Dev) (cmd : PktCmd) (wOk : Bool),
      ((send_cmd dev cmd wOk).2.2).pkt_num = dev.pkt_num)
    ∧ (∀ (dev : Dev) (cmd : PktCmd),
      ((send_cmd dev cmd true).2.1).pkt_num = (dev.pkt_num + 1) % U32)
    ∧ (∀ (dev : Dev) (cmd : PktCmd),
      (send_cmd dev cmd false).1 = Except.error PErr.timeout
      ∧ ((send_cmd dev cmd false).2.1).pkt_num = dev.pkt_num)
    ∧ (∀ (dev : Dev) (cmd : PktCmd), (sendAckCycle dev cmd).1 = Except.ok ())
    ∧ (∀ (P N : Nat) (cmd : PktCmd), P + N < U32 →
        (cyclesN (initDev P) cmd N).pkt_num = P + N) := by
  refine ⟨?_, ?_, ?_, ?_, ?_⟩
  · intro dev cmd wOk
    cases wOk <;> rfl
  · intro dev cmd
    rfl
  · intro dev cmd
    exact ⟨rfl, rfl⟩
  · intro dev cmd
    rw [sendAckCycle_eq]
  · intro P N cmd hPN
    have hP : (initDev P).pkt_num < U32 := by
      show P < U32
      omega
    have h := cyclesN_pkt (initDev P) cmd hP N
    rw [h]
    show (P + N) % U32 = P + N
    exact Nat.mod_eq_of_lt hPN

/-- C8 witness: starting at the program's initial counter 0x17, five
successful send/ack cycles leave the next outgoing packet number at
0x17 + 5. -/
theorem C8_witness :
    (cyclesN (initDev 0x17) connect_cmd 5).pkt_num = 0x17 + 5 :=
  C8_sequence_tracker.2.2.2.2 0x17 5 connect_cmd (by decide)

/-- C9 counterexample: against a device that ignores the first two
CONNECT frames and acknowledges the third, the handshake starting at
counter 0x17 returns success but the counter is not 0x17 + 1: the code
advances the counter on every successfully written frame, so three
probes advance it three times. -/
theorem C9_counterexample :
    (dev_connect (initDev 0x17) (connectIgnoreTwo 0x17)).1 = Except.ok ()
    ∧ (dev_connect (initDev 0x17) (connectIgnoreTwo 0x17)).2.pkt_num ≠ 0x17 + 1 :=
  ⟨rfl, by decide⟩

/-- C9 (amended): when the device ignores the first two CONNECT frames
and acknowledges the third with a valid ack, the handshake returns
success with the outgoing packet-number counter advanced by exactly
three relative to its value before the handshake — one increment per
CONNECT frame actually written, acknowledged or not. -/
theorem C9_connect_three_probes (p : Nat) (hp : p + 3 < U32) :
    (dev_connect (initDev p) (connectIgnoreTwo p)).1 = Except.ok ()
    ∧ (dev_connect (initDev p) (connectIgnoreTwo p)).2.pkt_num = p + 3 := by
  have ed1 : (devAfterSend (initDev p)).pkt_num = (p + 1) % U32 := rfl
  have ed2 : (devAfterSend (devAfterSend (initDev p))).pkt_num = (p + 2) % U32 := by
    show ((devAfterSend (initDev p)).pkt_num + 1) % U32 = _
    rw [ed1, Nat.mod_add_mod]
  have ed3 : (devAfterSend (devAfterSend (devAfterSend (initDev p)))).pkt_num
      = (p + 3) % U32 := by
    show ((devAfterSend (devAfterSend (initDev p))).pkt_num + 1) % U32 = _
    rw [ed2, Nat.mod_add_mod]
  have hpkt : (mkConnectAck p).pkt_num
      = (devAfterSend (devAfterSend (devAfterSend (initDev p)))).pkt_num := by
    rw [ed3]
    rfl
  have hchk : (mkConnectAck p).checksum
      = (devAfterSend (devAfterSend (devAfterSend (initDev p)))).checksum := by
    have hc : (devAfterSend (devAfterSend (devAfterSend (initDev p)))).checksum
        = calc_checksum { connect_cmd with
            pkt_num := (devAfterSend (devAfterSend (initDev p))).pkt_num } := rfl
    rw [hc, ed2]
    rfl
  have hrun : dev_connect (initDev p) (connectIgnoreTwo p)
      = (Except.ok (),
         { devAfterSend (devAfterSend (devAfterSend (initDev p))) with
             ack := mkConnectAck p }) := by
    rw [connectIgnoreTwo, dev_connect_none_step, dev_connect_none_step,
      dev_connect_ack_step _ _ _ hpkt hchk]
  constructor
  · rw [hrun]
  · rw [hrun]
    show (devAfterSend (devAfterSend (devAfterSend (initDev p)))).pkt_num = p + 3
    rw [ed3]
    exact Nat.mod_eq_of_lt hp

/-- C9 witness: the run at the program's initial counter 0x17 ends
connected with the counter at 0x17 + 3. -/
theorem C9_witness :
    (dev_connect (initDev 0x17) (connectIgnoreTwo 0x17)).2.pkt_num = 0x17 + 3 :=
  (C9_connect_three_probes 0x17 (by decide)).2

/-- C10: for every 3-bit LDSIZE value the resolved APROM capacity is at
most 18 KiB — the size of `dev_update_aprom`'s staging buffer — so every
image accepted by the capacity precondition fits in the buffer, and any
transfer that does not fail the too-large check reads at most
`stagingBufSize` bytes into it. -/
theorem C10_capacity_bound (ls : Nat) (hls : ls < 8) :
    apromCapacity ls ≤ stagingBufSize
    ∧ (∀ T : Nat, T ≤ apromCapacity ls → T ≤ stagingBufSize)
    ∧ (∀ (dev : Dev) (buf : List Nat) (io : List (Bool × Option PktAck)),
        dev.aprom_size = apromCapacity ls →
        (dev_update_aprom dev buf io).1 ≠ Except.error PErr.imageTooBig →
        buf.length ≤ stagingBufSize) := by
  have hcap : apromCapacity ls ≤ stagingBufSize := by
    interval_cases ls <;> decide
  refine ⟨hcap, fun T hT => le_trans hT hcap, ?_⟩
  intro dev buf io hsize hres
  by_cases hz : buf.length = 0
  · rw [hz]
    exact Nat.zero_le _
  · by_cases hbig : dev.aprom_size < buf.length
    · exfalso
      apply hres
      rw [dev_update_aprom, if_neg hz, if_pos hbig]
    · omega

/-- C10 witness: the largest table entry (LDSIZE = 7, APROM = 18 KiB)
exactly fills the staging buffer. -/
theorem C10_witness : apromCapacity 7 ≤ stagingBufSize :=
  (C10_capacity_bound 7 (by decide)).1

end Nvtispflash
